import Mathlib

/-!
Verification of the Qualcomm-AI-Challenge robot block-manipulation pipeline.

This file gives a shallow embedding, in Lean 4, of the parts of the Python
source relevant to the checked properties:

* `fsm_controller.py`       — the two-state pick/place/drop gate,
* `roarm_m2/actions/control_action.py` — `ActionController.execute_action`,
* `detect_jenga.py`         — distance estimation, pinhole back-projection,
                              homography frame transform, rectangle
                              canonicalization, direction disambiguation and
                              merged-blob splitting,
* `calibrate.py`            — homography computation from ArUco markers,
* `roarm-m2/roarm_helper.py` — the motion-completion polling wait,
* `roarm_m2/actions/pickup.py` — the pickup argument guards and sequencing.

Python floats are modelled as `ℚ`; Python `None` as `Option`; raised
exceptions as `Except String`.  External libraries (OpenCV, NumPy trig,
the HTTP transport) enter as explicit parameters (oracles), so the
embedded control flow is exactly that of the source.
-/

namespace FsmController

/-- Model of Python `str.strip().lower()` applied to ASCII text:
drop whitespace at both ends, then lower-case each character
(`fsm_controller.py`, `_normalize_state` line 20 and `fsm_controller`
line 78 both perform `.strip().lower()`). -/
def pyStripLower (s : String) : String :=
  String.mk (((s.data.dropWhile (·.isWhitespace)).reverse.dropWhile
      (·.isWhitespace)).reverse.map Char.toLower)

/-- Model of Python `str.replace(" ", "_")`: the pattern is a single
character, so this is a character-wise map. -/
def pyReplaceSpace (s : String) : String :=
  String.mk (s.data.map fun c => if c = ' ' then '_' else c)

/-- `fsm_controller._VALID_ACTIONS` (line 14). -/
def validActions : List String := ["pick", "drop", "place"]

/-- `fsm_controller._normalize_state` (lines 17-32).  `ValueError` is
modelled as `Except.error`.  The Python sets are kept as written in the
source (duplicate entries in a set literal do not change membership). -/
def normalize_state (s : String) : Except String String :=
  let t := pyReplaceSpace (pyStripLower s)
  if t ∈ ["have_block", "haveblock", "has_block", "hasblock"] then
    .ok "have_block"
  else if t ∈ ["doesnot_have_block", "doesnot_haveblock",
      "does_not_have_block"] then
    .ok "doesnot_have_block"
  else if t ∈ ["doesnot_have_block", "does_not_have_block",
      "does not have block", "doesnot have block"] then
    .ok "doesnot_have_block"
  else if t ∈ ["empty", "no_block", "no-block", "no_block_present"] then
    .ok "doesnot_have_block"
  else
    .error ("unknown current_state: " ++ s)

/-- `fsm_controller.fsm_controller` (lines 62-103).  The stub actions
`pick()`, `drop()`, `place()` (lines 35-59) are pure and return
`"picked"`, `"dropped"`, `"placed"`; the third component of the result
records which underlying actions were invoked, so that "the gate does
not invoke the underlying motion sequence on rejection" is statable.
`ValueError` is modelled as `Except.error`. -/
def fsm_controller (action_name current_state : String) :
    Except String (String × String × List String) :=
  let action := pyStripLower action_name
  if action ∈ validActions then
    match normalize_state current_state with
    | .error e => .error e
    | .ok state =>
      if action = "pick" then
        if state = "doesnot_have_block" then
          .ok ("have_block", "pick: picked", ["pick"])
        else
          .ok (state, "no-op: already have block", [])
      else if action = "drop" then
        if state = "have_block" then
          .ok ("doesnot_have_block", "drop: dropped", ["drop"])
        else
          .ok (state, "no-op: no block to drop", [])
      else
        if state = "have_block" then
          .ok ("doesnot_have_block", "place: placed", ["place"])
        else
          .ok (state, "no-op: no block to place", [])
  else
    .error ("unknown action: " ++ action_name)

end FsmController

namespace ControlAction

/-- `true` iff `pat` is a leading run of `l` (character-wise). -/
def leadMatch : List Char → List Char → Bool
  | [], _ => true
  | _ :: _, [] => false
  | a :: as, b :: bs => a == b && leadMatch as bs

/-- `true` iff `pat` occurs contiguously inside `l`; models Python
`pat in s` on strings. -/
def subMatch (pat : List Char) : List Char → Bool
  | [] => leadMatch pat []
  | c :: rest => leadMatch pat (c :: rest) || subMatch pat rest

/-- Python `"no-op" in fsm_msg` (`control_action.py` line 112). -/
def hasNoOp (s : String) : Bool := subMatch "no-op".data s.data

/-- `ActionController._perform_pick` (`control_action.py` lines 136-166).
`targets`/`color` are kept abstract (`Option Unit`): only their presence
matters to this method.  `outcome` is the behaviour of the imported
`pickup` call: `.ok (success, msg)` for a normal return, `.error e` for a
raised exception (caught by the method's `except` clause). -/
def perform_pick (targets color : Option Unit)
    (outcome : Except String (Bool × String)) : Bool × String :=
  match targets with
  | none => (false, "No targets dictionary provided for pick action")
  | some _ =>
    match color with
    | none => (false, "No color specified for pick action")
    | some _ =>
      match outcome with
      | .ok r => r
      | .error e => (false, "Pick execution error: " ++ e)

/-- `ActionController._perform_place` (lines 168-184). -/
def perform_place (outcome : Except String (Bool × String)) : Bool × String :=
  match outcome with
  | .ok r => r
  | .error e => (false, "Place execution error: " ++ e)

/-- `ActionController._perform_drop` (lines 186-202). -/
def perform_drop (outcome : Except String (Bool × String)) : Bool × String :=
  match outcome with
  | .ok r => r
  | .error e => (false, "Drop execution error: " ++ e)

/-- Step 3 of `ActionController.execute_action` (lines 115-126): dispatch
on the lower-cased action name; `none` models the `else` branch that
returns `(False, "Unknown action: ...")` early. -/
def dispatch_action (a : String) (targets color : Option Unit)
    (oPick oPlace oDrop : Except String (Bool × String)) :
    Option (Bool × String) :=
  if a = "pick" then some (perform_pick targets color oPick)
  else if a = "place" then some (perform_place oPlace)
  else if a = "drop" then some (perform_drop oDrop)
  else none

/-- `ActionController.execute_action` (`control_action.py` lines 64-134).
The result is `(current_state after the call, (success, message))`.
The underlying `pickup`/`place`/`drop` behaviours are the `oPick`,
`oPlace`, `oDrop` oracles. -/
def execute_action (current_state action : String)
    (targets color : Option Unit)
    (oPick oPlace oDrop : Except String (Bool × String)) :
    String × (Bool × String) :=
  let a := FsmController.pyStripLower action
  match FsmController.fsm_controller a current_state with
  | .error e => (current_state, (false, "FSM validation error: " ++ e))
  | .ok (new_state, fsm_msg, _) =>
    if hasNoOp fsm_msg then
      (current_state, (false, "Action rejected by FSM: " ++ fsm_msg))
    else
      match dispatch_action a targets color oPick oPlace oDrop with
      | none => (current_state, (false, "Unknown action: " ++ action))
      | some (success, result_msg) =>
        if success then
          (new_state, (true, result_msg ++ " [FSM: " ++ fsm_msg ++ "]"))
        else
          (current_state, (false, "Action execution failed: " ++ result_msg))

end ControlAction

namespace DetectJenga

/-- `TABLE_Z_HEIGHT` (`detect_jenga.py` line 5). -/
def TABLE_Z_HEIGHT : ℚ := -120

/-- `BLOCK_HEIGHT` (line 6). -/
def BLOCK_HEIGHT : ℚ := 15

/-- The `1e-6` guard used throughout `detect_jenga.py`. -/
def eps6 : ℚ := 1 / 1000000

/-- The camera-intrinsics dict (`__init__`, lines 31-36).  `fx`/`fy` are
`Option ℚ` because the default dict copies the (possibly unset) focal
length into them, while `ppx`/`ppy` default to numbers. -/
structure Intrinsics where
  fx : Option ℚ
  fy : Option ℚ
  ppx : ℚ
  ppy : ℚ

/-- The default intrinsics built by `__init__` when no dict is supplied
(lines 31-36): `fx = fy = focal_length`, `ppx = 320`, `ppy = 240`. -/
def defaultIntrinsics (focal_length : Option ℚ) : Intrinsics :=
  { fx := focal_length, fy := focal_length, ppx := 320, ppy := 240 }

/-- A 3-D point dict `{'x': _, 'y': _, 'z': _}`. -/
structure Point3 where
  x : ℚ
  y : ℚ
  z : ℚ
deriving DecidableEq

/-- A 3×3 homography matrix. -/
structure Mat3 where
  m00 : ℚ
  m01 : ℚ
  m02 : ℚ
  m10 : ℚ
  m11 : ℚ
  m12 : ℚ
  m20 : ℚ
  m21 : ℚ
  m22 : ℚ

/-- `JengaBlockDetector.calculate_distance` (lines 94-101):
`0.0` when the focal length is unset, else `L * f / pixel_width`. -/
def calculate_distance (focal_length : Option ℚ)
    (real_block_length pixel_width : ℚ) : ℚ :=
  match focal_length with
  | none => 0
  | some f => real_block_length * f / pixel_width

/-- `JengaBlockDetector.pixel_to_3d_world` (lines 103-136).  Python
evaluates `(pixel_x - ppx) * distance_cm / fx` left to right, so a `None`
`fx` (the default intrinsics with an unset focal length) raises a
`TypeError` at the division, and a zero `fx` raises `ZeroDivisionError`
(CPython float division by `0.0` raises rather than producing an
infinity); then the same for `fy`.  Both raises are `.error` cases, in
the source's evaluation order: `x` (hence `fx`) before `y` (hence
`fy`). -/
def pixel_to_3d_world (intr : Intrinsics) (pixel_x pixel_y distance_cm : ℚ) :
    Except String Point3 :=
  match intr.fx with
  | none => .error "TypeError: unsupported operand types for /: float and NoneType"
  | some fx =>
    if fx = 0 then .error "ZeroDivisionError: float division by zero"
    else
      match intr.fy with
      | none => .error "TypeError: unsupported operand types for /: float and NoneType"
      | some fy =>
        if fy = 0 then .error "ZeroDivisionError: float division by zero"
        else
          .ok { x := (pixel_x - intr.ppx) * distance_cm / fx
                y := (pixel_y - intr.ppy) * distance_cm / fy
                z := distance_cm }

/-- The third homogeneous coordinate produced by applying the homography
to the re-projected pixel of `p` (lines 171-176): `w = M₂₀·u + M₂₁·v + M₂₂`
with `u = x·fx/z + ppx`, `v = y·fy/z + ppy`. -/
def homogW (fx fy ppx ppy : ℚ) (M : Mat3) (p : Point3) : ℚ :=
  let u := p.x * fx / p.z + ppx
  let v := p.y * fy / p.z + ppy
  M.m20 * u + M.m21 * v + M.m22

/-- `JengaBlockDetector.transform_to_new_frame` (lines 149-194).
Mirrors the source's guard order: no homography → `none`; `|z| < 1e-6` →
`none` (checked before `fx` is touched); then `u`,`v` are computed (a
`None` intrinsic raises here); near-zero third homogeneous coordinate →
`none`; otherwise the robot-frame point. -/
def transform_to_new_frame (intr : Intrinsics) (homography : Option Mat3)
    (p : Point3) : Except String (Option Point3) :=
  match homography with
  | none => .ok none
  | some M =>
    if |p.z| < eps6 then .ok none
    else
      match intr.fx with
      | none => .error "TypeError: unsupported operand types for *: float and NoneType"
      | some fx =>
        match intr.fy with
        | none => .error "TypeError: unsupported operand types for *: float and NoneType"
        | some fy =>
          let u := p.x * fx / p.z + intr.ppx
          let v := p.y * fy / p.z + intr.ppy
          let w := M.m20 * u + M.m21 * v + M.m22
          if |w| < eps6 then .ok none
          else
            .ok (some
              { x := (M.m00 * u + M.m01 * v + M.m02) / w
                y := (M.m10 * u + M.m11 * v + M.m12) / w
                z := 785 / 10 - p.z + TABLE_Z_HEIGHT + BLOCK_HEIGHT / 2 })

/-- `JengaBlockDetector._direction_away_from_observer_bottom`
(lines 209-220), with `eps = 1e-6`:
flip the sign when `vy > eps`, or when `|vy| ≤ eps` and `vx < 0`. -/
def direction_away_from_observer_bottom (vx vy : ℚ) : ℚ × ℚ :=
  if vy > eps6 ∨ (|vy| ≤ eps6 ∧ vx < 0) then (-vx, -vy) else (vx, vy)

/-- The rect-info dict produced by `find_aligned_rectangle`
(lines 86-92): center, long side as `width`, short side as `height`,
angle in degrees, and the four box corner points. -/
structure RectInfo where
  center : ℚ × ℚ
  width : ℚ
  height : ℚ
  angle : ℚ
  box : List (ℚ × ℚ)
deriving DecidableEq

/-- `JengaBlockDetector.find_aligned_rectangle` (lines 67-92), taking the
output of the external `cv2.minAreaRect` — `(center, (width, height),
angle)` — and of `cv2.boxPoints` as inputs: swap the sides and add 90° to
the angle when the raw rectangle reports `width < height`. -/
def find_aligned_rectangle (rect : (ℚ × ℚ) × (ℚ × ℚ) × ℚ)
    (box : List (ℚ × ℚ)) : RectInfo :=
  let center := rect.1
  let width := rect.2.1.1
  let height := rect.2.1.2
  let angle := rect.2.2
  if width < height then
    { center := center, width := height, height := width,
      angle := angle + 90, box := box }
  else
    { center := center, width := width, height := height,
      angle := angle, box := box }

/-- The detector configuration fields read by `_split_rect_if_merged`
(`__init__` lines 20-28): block length 7, short sides `(2.5, 1.5)`,
split tolerance `0.30`, at most 8 splits per axis. -/
structure DetectorConfig where
  real_block_length : ℚ := 7
  real_block_short_sides : ℚ × ℚ := (5 / 2, 3 / 2)
  split_tolerance : ℚ := 3 / 10
  max_split_per_axis : ℤ := 8

/-- Python 3 `round` to an integer: nearest, ties to even. -/
def pyRound (q : ℚ) : ℤ :=
  let f := ⌊q⌋
  let r := q - f
  if r < 1 / 2 then f
  else if 1 / 2 < r then f + 1
  else if Even f then f else f + 1

/-- Python `min([a1, a2], key=fun a => |o - a|)`: the first element wins
ties, a later element replaces it only when strictly smaller. -/
def pyMinByDistPair (o a1 a2 : ℚ) : ℚ :=
  if |o - a2| < |o - a1| then a2 else a1

/-- `observed_aspect` (line 311): `width / height`. -/
def observedAspect (r : RectInfo) : ℚ := r.width / r.height

/-- `expected_aspect` (lines 315-316): the candidate `L / s` over the two
known short sides that is closest to the observed aspect ratio. -/
def expectedAspect (cfg : DetectorConfig) (r : RectInfo) : ℚ :=
  pyMinByDistPair (observedAspect r)
    (cfg.real_block_length / cfg.real_block_short_sides.1)
    (cfg.real_block_length / cfg.real_block_short_sides.2)

/-- `JengaBlockDetector._split_rect_if_merged` (lines 296-369).
`trig angle` stands for NumPy's `(cos (deg2rad angle), sin (deg2rad
angle))` and `bp center (w, h) angle` for `cv2.boxPoints` — both
external numeric routines, passed as oracles; neither affects whether a
split happens. -/
def split_rect_if_merged (cfg : DetectorConfig) (trig : ℚ → ℚ × ℚ)
    (bp : (ℚ × ℚ) → (ℚ × ℚ) → ℚ → List (ℚ × ℚ)) (r : RectInfo) :
    List RectInfo :=
  let width := r.width
  let height := r.height
  if width ≤ eps6 ∨ height ≤ eps6 then [r]
  else
    let observed := observedAspect r
    let expected := expectedAspect cfg r
    let tol := cfg.split_tolerance
    let nMajorRaw : ℤ :=
      if expected * (1 + tol) < observed then pyRound (observed / expected)
      else 1
    let nMinorRaw : ℤ :=
      if 1 + tol < height / width * expected then
        pyRound (height / width * expected)
      else 1
    let nMajor := max 1 (min cfg.max_split_per_axis nMajorRaw)
    let nMinor := max 1 (min cfg.max_split_per_axis nMinorRaw)
    if nMajor = 1 ∧ nMinor = 1 then [r]
    else
      let angle := r.angle
      let uv := trig angle
      let ux := uv.1
      let uy := uv.2
      let vx := -uy
      let vy := ux
      let subW := width / (nMajor : ℚ)
      let subH := height / (nMinor : ℚ)
      let cx0 := r.center.1
      let cy0 := r.center.2
      (List.range nMajor.toNat).flatMap fun i =>
        (List.range nMinor.toNat).map fun j =>
          let offMajor := ((i : ℚ) - ((nMajor : ℚ) - 1) / 2) * subW
          let offMinor := ((j : ℚ) - ((nMinor : ℚ) - 1) / 2) * subH
          let cx := cx0 + offMajor * ux + offMinor * vx
          let cy := cy0 + offMajor * uy + offMinor * vy
          { center := (cx, cy), width := subW, height := subH,
            angle := angle, box := bp (cx, cy) (subW, subH) angle }

end DetectJenga

namespace Calibrate

/-- Centroid of a marker's detected corner points
(`calibrate.py` lines 71-72): the arithmetic mean of the x's and y's. -/
def centroid (cs : List (ℚ × ℚ)) : ℚ × ℚ :=
  ((cs.map Prod.fst).sum / cs.length, (cs.map Prod.snd).sum / cs.length)

/-- `list(ids).index(target_id)` followed by `corners[index][0]`
(lines 69-70): the corner list of the first detection carrying the
target identity, `none` when the identity is absent (Python raises
`ValueError`, caught at line 75). -/
def findCorners (dets : List (ℕ × List (ℚ × ℚ))) (target : ℕ) :
    Option (List (ℚ × ℚ)) :=
  (dets.find? fun d => d.1 = target).map Prod.snd

/-- The marker loop of `compute_homography` (lines 66-77): collect the
corner centroid for every expected identity in order, aborting with
`none` (the caught `ValueError`) at the first missing identity. -/
def collectImagePoints (dets : List (ℕ × List (ℚ × ℚ))) :
    List ℕ → Option (List (ℚ × ℚ))
  | [] => some []
  | t :: rest =>
    match findCorners dets t with
    | none => none
    | some cs => (collectImagePoints dets rest).map (centroid cs :: ·)

/-- `Calibrator.compute_homography` (`calibrate.py` lines 56-80).
`gpt` stands for the external `cv2.getPerspectiveTransform`; its result
type `M` is abstract.  `dets = none` models `ids is None`; otherwise
`dets` pairs each detected marker's identity with its corner points,
in detection order. -/
def compute_homography {M : Type} (gpt : List (ℚ × ℚ) → List (ℚ × ℚ) → M)
    (robot_coords : List (ℚ × ℚ)) (marker_ids : List ℕ)
    (dets : Option (List (ℕ × List (ℚ × ℚ)))) : Option M :=
  match dets with
  | none => none
  | some l =>
    if l.length < 4 then none
    else
      match collectImagePoints l marker_ids with
      | none => none
      | some pts => some (gpt pts robot_coords)

end Calibrate

namespace RoarmHelper

/-- A value in the feedback dict: numeric (`int`/`float`) or not. -/
inductive FbVal
  | num (q : ℚ)
  | other
deriving DecidableEq

/-- One feedback response: a Python dict as an ordered association list. -/
abbrev Feedback := List (String × FbVal)

/-- The monitored axes (`roarm-m2/roarm_helper.py` line 75). -/
def monitoredKeys : List String := ["b", "s", "e", "h", "x", "y", "z"]

/-- The dict comprehension of line 75: keep the numeric values of the
monitored keys. -/
def currentValues (fb : Feedback) : List (String × ℚ) :=
  fb.filterMap fun kv =>
    match kv.2 with
    | .num q => if kv.1 ∈ monitoredKeys then some (kv.1, q) else none
    | .other => none

/-- `last_values.get(key, val)` (line 85). -/
def lookupD (lv : List (String × ℚ)) (k : String) (d : ℚ) : ℚ :=
  (lv.lookup k).getD d

/-- The `max_delta` loop (lines 83-88): the largest absolute change of a
monitored value against the previous poll, starting from `0.0`. -/
def maxDelta (cur lv : List (String × ℚ)) : ℚ :=
  cur.foldl (fun acc kv => max acc |kv.2 - lookupD lv kv.1 kv.2|) 0

/-- Why `wait_for_motion_completion` stopped waiting. -/
inductive WaitExit
  | stable
  | commFailure
  | timeout
deriving DecidableEq

/-- The `while True` loop of `wait_for_motion_completion`
(`roarm-m2/roarm_helper.py` lines 53-107), one constructor argument per
piece of mutable loop state:

* `stream i` is the result of the `i`-th `get_feedback()` call (`none`
  models a falsy response — `None` or an empty dict — which `break`s);
* `sc` is `stable_count`, `lv` is `last_values`;
* `elapsed` is `time.time() - start_time`, advanced by `interval` at
  each `time.sleep(check_interval)` (polling itself is instantaneous in
  the model);
* `fuel` bounds the recursion so the model is total: `none` means the
  loop has not exited within `fuel` iterations.

Note the `if not last_values` branch (lines 77-80) jumps straight back
to the top of the loop, skipping both the stability and the 15-second
timeout checks. -/
def waitLoop (stream : ℕ → Option Feedback) (tol interval : ℚ)
    (required : ℕ) :
    ℕ → ℕ → ℕ → List (String × ℚ) → ℚ → Option WaitExit
  | 0, _, _, _, _ => none
  | fuel + 1, i, sc, lv, elapsed =>
    match stream i with
    | none => some .commFailure
    | some fb =>
      if fb.isEmpty then some .commFailure
      else
        let cur := currentValues fb
        if lv.isEmpty then
          waitLoop stream tol interval required fuel (i + 1) sc cur
            (elapsed + interval)
        else
          let md := maxDelta cur lv
          let sc' := if md < tol then sc + 1 else 0
          if required ≤ sc' then some .stable
          else if 15 < elapsed then some .timeout
          else
            waitLoop stream tol interval required fuel (i + 1) sc' cur
              (elapsed + interval)

/-- `RoArmController.wait_for_motion_completion` with its default
arguments: `check_interval = 0.2`, `stability_required = 3`, and the
controller's `motion_tolerance = 0.02` (line 18). -/
def wait_for_motion_completion (stream : ℕ → Option Feedback) (fuel : ℕ) :
    Option WaitExit :=
  waitLoop stream (2 / 100) (2 / 10) 3 fuel 0 0 [] 0

/-- A feedback source that always answers with a truthy dict carrying no
numeric monitored axis — exactly what `_send_command`'s raw-text fallback
(`{"status": "ok", "raw": ...}`, lines 34-36) produces on every poll. -/
def statusOnlyStream : ℕ → Option Feedback :=
  fun _ => some [("status", .other)]

end RoarmHelper

namespace Pickup

/-- A primitive command sent to the arm by the pickup sequence
(`roarm_helper.RoArmController` methods). -/
inductive ArmCmd
  | setTorque (enable : Bool)
  | setJoint (joint_id : ℕ) (angle : ℚ)
  | moveCartesian (x y z t speed : ℚ)
deriving DecidableEq

/-- `_ensure_coordinate` (`pickup.py` lines 29-37): at least `x` and `y`
must be present; a third component becomes `z`, any further ones are
ignored.  A short list raises `ValueError` (modelled as `.error`). -/
def ensure_coordinate (coord : List ℚ) : Except String (ℚ × ℚ × Option ℚ) :=
  match coord with
  | x :: y :: z :: _ => .ok (x, y, some z)
  | x :: y :: [] => .ok (x, y, none)
  | _ => .error "Coordinate must contain at least x and y"

/-- One `try`/`except` step of the action sequence: issue `cmd`; on
success carry the grown trace forward, on a raised exception stop with
`(False, failMsg ++ exception)` and the trace of commands issued so
far (the failing command included — it was sent). -/
def runStep (armExec : ArmCmd → Except String Unit) (trace : List ArmCmd)
    (cmd : ArmCmd) (failMsg : String) :
    Except ((Bool × String) × List ArmCmd) (List ArmCmd) :=
  match armExec cmd with
  | .ok _ => .ok (trace ++ [cmd])
  | .error e => .error ((false, failMsg ++ ": " ++ e), trace ++ [cmd])

/-- The color selection of `pickup` (lines 66-67): an explicit `color`
argument is kept, otherwise the first key of the targets dict
(`next(iter(targets.keys()))`). -/
def selectColor (targets : List (String × List (List ℚ)))
    (color : Option String) : Option String :=
  match targets with
  | [] => none
  | (k, _) :: _ => some (color.getD k)

/-- `pickup` (`pickup.py` lines 40-160) with its default keyword
arguments (`open_angle = 1.57`, `close_angle = 3.14`,
`approach_z_default = 150`, `grasp_z_default = 50`,
`home_coords = (200, 0, 150)`).

The targets dict is an ordered association list (`none`-like non-dict
arguments are outside the typed model; the `not targets` emptiness test
is the `[]` case).  `armExec` is the arm transport: constructing the
controller and each `set_torque`/`set_joint`/`move_cartesian` call either
returns or raises.  The result pairs `(success, message)` with the trace
of arm commands issued during the call.  Python's `repr` quoting inside
messages is elided. -/
def pickup (armExec : ArmCmd → Except String Unit)
    (targets : List (String × List (List ℚ))) (color : Option String) :
    (Bool × String) × List ArmCmd :=
  match targets with
  | [] => ((false, "Targets must be a non-empty dict"), [])
  | (k0, _) :: _ =>
    let color := (color.getD k0)
    match targets.lookup color with
    | none => ((false, "Color " ++ color ++ " not found in targets"), [])
    | some coords_list =>
      match coords_list with
      | [] => ((false, "No coordinates found for color " ++ color), [])
      | coord0 :: _ =>
        match ensure_coordinate coord0 with
        | .error e => ((false, "Invalid coordinate: " ++ e), [])
        | .ok (x, y, z) =>
          let openAngle : ℚ := 157 / 100
          let closeAngle : ℚ := 314 / 100
          let approachZ := match z with | some zq => zq + 10 | none => 150
          let graspZ := match z with | some zq => zq + 5 | none => 50
          let result :=
            (runStep armExec [] (.setTorque true)
                "Failed to initialize arm").bind fun tr =>
            (runStep armExec tr (.setJoint 4 openAngle)
                "Failed to open gripper").bind fun tr =>
            (runStep armExec tr
                (.moveCartesian x y approachZ openAngle (4 / 10))
                "Failed approach move").bind fun tr =>
            (runStep armExec tr
                (.moveCartesian x y graspZ openAngle (2 / 10))
                "Failed to lower arm").bind fun tr =>
            (runStep armExec tr (.setJoint 4 closeAngle)
                "Failed to close gripper").bind fun tr =>
            (runStep armExec tr
                (.moveCartesian x y approachZ closeAngle (3 / 10))
                "Failed to perform safety lift").bind fun tr =>
            (runStep armExec tr
                (.moveCartesian 200 0 150 closeAngle (4 / 10))
                "Failed to return home")
          match result with
          | .error out => out
          | .ok tr =>
            ((true, "Picked " ++ color ++ " and returned to home"), tr)

end Pickup

namespace FsmController

example : normalize_state "does not have block" = .ok "doesnot_have_block" := rfl

example : fsm_controller "Pick " "have_block" =
    .ok ("have_block", "no-op: already have block", []) := rfl

/-- C1: for every call `fsm_controller(action, state)` whose state
normalizes to a canonical state, `pick` from the no-block state runs the
underlying `pick` action and moves to `have_block`; `place`/`drop` from
the holding state run their action and move to `doesnot_have_block`; a
valid action in the wrong state leaves the state unchanged, reports a
no-op and invokes no underlying action (empty invocation list); an
unrecognized action name raises `ValueError` instead of being a no-op. -/
theorem fsm_gate_transitions (action state canon : String)
    (h : normalize_state state = .ok canon) :
    (pyStripLower action = "pick" →
      (canon = "doesnot_have_block" →
        fsm_controller action state =
          .ok ("have_block", "pick: picked", ["pick"])) ∧
      (canon = "have_block" →
        fsm_controller action state =
          .ok ("have_block", "no-op: already have block", [])))
    ∧ (pyStripLower action = "place" →
      (canon = "have_block" →
        fsm_controller action state =
          .ok ("doesnot_have_block", "place: placed", ["place"])) ∧
      (canon = "doesnot_have_block" →
        fsm_controller action state =
          .ok ("doesnot_have_block", "no-op: no block to place", [])))
    ∧ (pyStripLower action = "drop" →
      (canon = "have_block" →
        fsm_controller action state =
          .ok ("doesnot_have_block", "drop: dropped", ["drop"])) ∧
      (canon = "doesnot_have_block" →
        fsm_controller action state =
          .ok ("doesnot_have_block", "no-op: no block to drop", [])))
    ∧ (pyStripLower action ∉ validActions →
        fsm_controller action state =
          .error ("unknown action: " ++ action)) := by
  refine ⟨fun ha => ⟨fun hc => ?_, fun hc => ?_⟩,
    fun ha => ⟨fun hc => ?_, fun hc => ?_⟩,
    fun ha => ⟨fun hc => ?_, fun hc => ?_⟩, fun ha => ?_⟩ <;>
    first
      | (subst hc; simp [fsm_controller, ha, h, validActions])
      | (simp only [fsm_controller]; rw [if_neg ha])

/-- Witness for C1 at a concrete call: `pick` from `"empty"`. -/
theorem fsm_gate_transitions_witness :
    fsm_controller "pick" "empty" =
      .ok ("have_block", "pick: picked", ["pick"]) :=
  ((fsm_gate_transitions "pick" "empty" "doesnot_have_block" rfl).1 rfl).1 rfl

end FsmController

namespace ControlAction

/-- C2: for every `ActionController.execute_action` call, if the
dispatched physical action reports failure (which includes every raised
exception, caught and turned into `(False, ...)` by the `_perform_*`
wrappers), the controller's state after the call equals its state
before; and whenever the state changed at all, the dispatched action
returned success and the new state is exactly the state the FSM
validation produced. -/
theorem execute_action_state_consistency (st action : String)
    (targets color : Option Unit)
    (oPick oPlace oDrop : Except String (Bool × String)) :
    (∀ m, dispatch_action (FsmController.pyStripLower action)
        targets color oPick oPlace oDrop = some (false, m) →
      (execute_action st action targets color oPick oPlace oDrop).1 = st)
    ∧ ((execute_action st action targets color oPick oPlace oDrop).1 ≠ st →
      ∃ ns fmsg inv m,
        FsmController.fsm_controller (FsmController.pyStripLower action) st =
          .ok (ns, fmsg, inv) ∧
        dispatch_action (FsmController.pyStripLower action)
          targets color oPick oPlace oDrop = some (true, m) ∧
        (execute_action st action targets color oPick oPlace oDrop).1 = ns) := by
  simp only [execute_action]
  cases hf : FsmController.fsm_controller (FsmController.pyStripLower action) st with
  | error e => exact ⟨fun m _ => rfl, fun hne => absurd rfl hne⟩
  | ok v =>
    obtain ⟨ns, fmsg, inv⟩ := v
    cases hno : hasNoOp fmsg with
    | true =>
      simp only [hno, if_true]
      exact ⟨fun m _ => trivial, fun hne => absurd rfl hne⟩
    | false =>
      simp only [hno, Bool.false_eq_true, if_false]
      cases hd : dispatch_action (FsmController.pyStripLower action)
          targets color oPick oPlace oDrop with
      | none => exact ⟨fun m _ => rfl, fun hne => absurd rfl hne⟩
      | some r =>
        obtain ⟨succ, rmsg⟩ := r
        cases succ with
        | false =>
          simp only [Bool.false_eq_true, if_false]
          exact ⟨fun m _ => trivial, fun hne => absurd rfl hne⟩
        | true =>
          simp only [if_true]
          refine ⟨fun m hm => ?_, fun _ => ⟨ns, fmsg, inv, rmsg, rfl, rfl, rfl⟩⟩
          simp at hm

/-- Witness for C2: a `place` whose underlying `place()` call raises;
the state stays `"have_block"`. -/
theorem execute_action_state_consistency_witness :
    (execute_action "have_block" "place" none none
      (.ok (false, "")) (.error "connection refused") (.ok (false, ""))).1 =
      "have_block" :=
  (execute_action_state_consistency "have_block" "place" none none
      (.ok (false, "")) (.error "connection refused") (.ok (false, ""))).1
    "Place execution error: connection refused" rfl

end ControlAction

namespace DetectJenga

/-- C3 counterexample: with the focal length unset and the detector's
default camera intrinsics (whose `fx`/`fy` are that unset focal length),
the distance is `0.0` as claimed, but `pixel_to_3d_world` raises a
`TypeError` (`0.0 / None`) at pixel `(100, 100)` instead of returning a
point — so "no exception is raised anywhere in this path" is false. -/
theorem pixel_to_3d_default_intrinsics_raises :
    calculate_distance none 7 50 = 0 ∧
    pixel_to_3d_world (defaultIntrinsics none) 100 100
        (calculate_distance none 7 50) =
      .error "TypeError: unsupported operand types for /: float and NoneType" :=
  ⟨rfl, rfl⟩

/-- C3 (amended): with the focal length unset the reported distance is
`0.0`, and for any *nonzero numeric* camera intrinsics the 3-D point
exists and has `z = 0` with no exception; but with the default
intrinsics derived from the unset focal length, `pixel_to_3d_world`
raises a `TypeError`.  (A zero `fx`/`fy` would raise
`ZeroDivisionError`, hence the nonzero hypotheses.) -/
theorem unset_focal_distance_zero (px py ppx ppy fx fy L w : ℚ)
    (hfx : fx ≠ 0) (hfy : fy ≠ 0) :
    calculate_distance none L w = 0
    ∧ (∃ pt, pixel_to_3d_world ⟨some fx, some fy, ppx, ppy⟩ px py
          (calculate_distance none L w) = .ok pt ∧ pt.z = 0)
    ∧ ∃ e, pixel_to_3d_world (defaultIntrinsics none) px py
          (calculate_distance none L w) = .error e := by
  refine ⟨rfl, ⟨{ x := (px - ppx) * 0 / fx, y := (py - ppy) * 0 / fy, z := 0 },
    ?_, rfl⟩, _, rfl⟩
  simp only [pixel_to_3d_world]
  rw [if_neg hfx, if_neg hfy]
  rfl

/-- Witness for C3's amended theorem at pixel `(100, 100)` with the
nonzero intrinsics `fx = fy = 600`, `ppx = 320`, `ppy = 240`. -/
theorem unset_focal_distance_zero_witness :
    calculate_distance none 7 50 = 0
    ∧ (∃ pt, pixel_to_3d_world ⟨some 600, some 600, 320, 240⟩ 100 100
          (calculate_distance none 7 50) = .ok pt ∧ pt.z = 0)
    ∧ ∃ e, pixel_to_3d_world (defaultIntrinsics none) 100 100
          (calculate_distance none 7 50) = .error e :=
  unset_focal_distance_zero 100 100 320 240 600 600 7 50
    (by norm_num) (by norm_num)

/-- C4 counterexample: the claim's tie-break is wrong, and its
"non-positive vertical component" is violated near the horizontal.
For the exactly horizontal unit vector `(1, 0)` the function returns
`(1, 0)` — positive, not negative, horizontal; and for the unit vector
`((10¹⁴-1)/(10¹⁴+1), 2·10⁷/(10¹⁴+1))` (vertical component ≈ 2·10⁻⁷,
inside the `1e-6` band) the vector is returned unchanged, with a
strictly positive vertical component. -/
theorem direction_tie_break_counterexample :
    direction_away_from_observer_bottom 1 0 = (1, 0)
    ∧ ¬ ((direction_away_from_observer_bottom 1 0).1 < 0)
    ∧ ((1 : ℚ) ^ 2 + (0 : ℚ) ^ 2 = 1)
    ∧ direction_away_from_observer_bottom
        ((10 ^ 14 - 1) / (10 ^ 14 + 1)) (2 * 10 ^ 7 / (10 ^ 14 + 1)) =
      (((10 ^ 14 - 1) / (10 ^ 14 + 1) : ℚ), (2 * 10 ^ 7 / (10 ^ 14 + 1) : ℚ))
    ∧ (0 : ℚ) <
        (direction_away_from_observer_bottom
          ((10 ^ 14 - 1) / (10 ^ 14 + 1)) (2 * 10 ^ 7 / (10 ^ 14 + 1))).2
    ∧ ((10 ^ 14 - 1) / (10 ^ 14 + 1) : ℚ) ^ 2 +
        (2 * 10 ^ 7 / (10 ^ 14 + 1) : ℚ) ^ 2 = 1 := by
  have h1 : direction_away_from_observer_bottom 1 0 = (1, 0) := by
    unfold direction_away_from_observer_bottom
    rw [if_neg]
    push_neg
    refine ⟨by norm_num [eps6], fun _ => by norm_num⟩
  have h2 : direction_away_from_observer_bottom
      ((10 ^ 14 - 1) / (10 ^ 14 + 1)) (2 * 10 ^ 7 / (10 ^ 14 + 1)) =
      (((10 ^ 14 - 1) / (10 ^ 14 + 1) : ℚ), (2 * 10 ^ 7 / (10 ^ 14 + 1) : ℚ)) := by
    unfold direction_away_from_observer_bottom
    rw [if_neg]
    push_neg
    constructor
    · norm_num [eps6]
    · intro _
      norm_num
  refine ⟨h1, by rw [h1]; norm_num, by norm_num, h2, by rw [h2]; norm_num,
    by norm_num⟩

/-- C4 (amended): for every unit vector, the returned vertical component
is at most `eps = 1e-6`; it is strictly negative (truly pointing toward
the top of the image) whenever `|vy| > eps`; and for an exactly
horizontal unit vector the tie is broken toward *positive* horizontal
(the source comment: "If perfectly horizontal, prefer +x for
stability"). -/
theorem direction_away_from_observer_spec (vx vy : ℚ)
    (hunit : vx ^ 2 + vy ^ 2 = 1) :
    (direction_away_from_observer_bottom vx vy).2 ≤ eps6
    ∧ (eps6 < |vy| → (direction_away_from_observer_bottom vx vy).2 < 0)
    ∧ (vy = 0 → 0 < (direction_away_from_observer_bottom vx vy).1) := by
  have heps : (0 : ℚ) < eps6 := by norm_num [eps6]
  unfold direction_away_from_observer_bottom
  by_cases hcond : vy > eps6 ∨ (|vy| ≤ eps6 ∧ vx < 0)
  · rw [if_pos hcond]
    dsimp only
    rcases hcond with h1 | ⟨h2a, h2b⟩
    · refine ⟨by linarith, fun _ => by linarith, fun h0 => ?_⟩
      rw [h0] at h1; linarith
    · have := abs_le.mp h2a
      refine ⟨by linarith, fun habs => absurd h2a (not_le.mpr habs),
        fun h0 => by linarith⟩
  · rw [if_neg hcond]
    dsimp only
    push_neg at hcond
    obtain ⟨hle, himp⟩ := hcond
    refine ⟨hle, fun habs => ?_, fun h0 => ?_⟩
    · rcases lt_or_le vy 0 with hneg | hpos
      · exact hneg
      · rw [abs_of_nonneg hpos] at habs; linarith
    · subst h0
      have hvx : 0 ≤ vx := himp (by simp [heps.le])
      have hsq : (vx - 1) * (vx + 1) = 0 := by nlinarith [hunit]
      rcases mul_eq_zero.mp hsq with h | h
      · linarith
      · linarith

/-- Witness for C4's amended theorem at the unit vector `(3/5, 4/5)`. -/
theorem direction_away_from_observer_spec_witness :
    (direction_away_from_observer_bottom (3 / 5) (4 / 5)).2 ≤ eps6
    ∧ (eps6 < |(4 / 5 : ℚ)| →
        (direction_away_from_observer_bottom (3 / 5) (4 / 5)).2 < 0)
    ∧ ((4 / 5 : ℚ) = 0 →
        0 < (direction_away_from_observer_bottom (3 / 5) (4 / 5)).1) :=
  direction_away_from_observer_spec (3 / 5) (4 / 5) (by norm_num)

/-- C9: `find_aligned_rectangle` always reports the long side as
`width` (`height ≤ width`), and the angle is increased by exactly 90°
precisely when the raw minimum-area rectangle reported
`width < height`. -/
theorem find_aligned_rectangle_canonical
    (rect : (ℚ × ℚ) × (ℚ × ℚ) × ℚ) (box : List (ℚ × ℚ)) :
    (find_aligned_rectangle rect box).height ≤
      (find_aligned_rectangle rect box).width
    ∧ ((find_aligned_rectangle rect box).angle = rect.2.2 + 90 ↔
        rect.2.1.1 < rect.2.1.2) := by
  simp only [find_aligned_rectangle]
  split_ifs with h
  · exact ⟨le_of_lt h, by simp [h]⟩
  · refine ⟨le_of_not_lt h, ?_⟩
    simp only [iff_false_intro h, iff_false, self_eq_add_right]
    norm_num

/-- C6: for every camera-frame 3-D point (with the camera intrinsics
holding numbers, as supplied by the camera collaborator),
`transform_to_new_frame` raises no exception, and it returns an absent
robot-frame point exactly when the calibration homography is not
loaded, or `|z| < 1e-6`, or the third homogeneous coordinate after
applying the homography is smaller than `1e-6` in absolute value; in
every other case a robot-frame point is returned. -/
theorem transform_to_new_frame_absent_iff (intr : Intrinsics)
    (homography : Option Mat3) (p : Point3) (fx fy : ℚ)
    (hfx : intr.fx = some fx) (hfy : intr.fy = some fy) :
    ∃ r, transform_to_new_frame intr homography p = .ok r ∧
      (r = none ↔ (homography = none ∨ |p.z| < eps6 ∨
        ∃ M, homography = some M ∧
          |homogW fx fy intr.ppx intr.ppy M p| < eps6)) := by
  cases homography with
  | none => exact ⟨none, rfl, by simp⟩
  | some M =>
    simp only [transform_to_new_frame, hfx, hfy, homogW]
    by_cases hz : |p.z| < eps6
    · rw [if_pos hz]
      exact ⟨none, rfl, by simp [hz]⟩
    · rw [if_neg hz]
      by_cases hw : |M.m20 * (p.x * fx / p.z + intr.ppx) +
          M.m21 * (p.y * fy / p.z + intr.ppy) + M.m22| < eps6
      · rw [if_pos hw]
        refine ⟨none, rfl, ?_⟩
        simp only [true_iff]
        exact Or.inr (Or.inr ⟨M, rfl, hw⟩)
      · rw [if_neg hw]
        refine ⟨some _, rfl, ?_⟩
        simp [hz, hw]

/-- Witness for C6 with a loaded identity homography and the point
`(0, 0, 10)`: the transform returns an actual robot-frame point. -/
theorem transform_to_new_frame_absent_iff_witness :
    ∃ r, transform_to_new_frame ⟨some 600, some 600, 320, 240⟩
        (some ⟨1, 0, 0, 0, 1, 0, 0, 0, 1⟩) ⟨0, 0, 10⟩ = .ok r ∧
      (r = none ↔ ((some (Mat3.mk 1 0 0 0 1 0 0 0 1) : Option Mat3) = none ∨
        |(Point3.mk 0 0 10).z| < eps6 ∨
        ∃ M, (some (Mat3.mk 1 0 0 0 1 0 0 0 1) : Option Mat3) = some M ∧
          |homogW 600 600 320 240 M ⟨0, 0, 10⟩| < eps6)) :=
  transform_to_new_frame_absent_iff ⟨some 600, some 600, 320, 240⟩
    (some ⟨1, 0, 0, 0, 1, 0, 0, 0, 1⟩) ⟨0, 0, 10⟩ 600 600 rfl rfl

end DetectJenga

namespace DetectJenga

/-- C7: a canonical rectangle (positive sides, `height ≤ width`) whose
observed aspect ratio is within the `1 + tolerance` factor of the
nearest expected single-block aspect along both the major and the minor
axis is returned unchanged as a one-element list: both split counts are
1 and no split happens.  (`trig`/`bp` are the external cos/sin and
`cv2.boxPoints` oracles; they cannot influence this case.) -/
theorem split_rect_noop_within_tolerance (cfg : DetectorConfig)
    (trig : ℚ → ℚ × ℚ) (bp : (ℚ × ℚ) → (ℚ × ℚ) → ℚ → List (ℚ × ℚ))
    (r : RectInfo) (hpos : 0 < r.height) (hwh : r.height ≤ r.width)
    (hmaj : observedAspect r ≤
      expectedAspect cfg r * (1 + cfg.split_tolerance))
    (hmin : r.height / r.width * expectedAspect cfg r ≤
      1 + cfg.split_tolerance) :
    split_rect_if_merged cfg trig bp r = [r] := by
  simp only [split_rect_if_merged]
  by_cases hsmall : r.width ≤ eps6 ∨ r.height ≤ eps6
  · rw [if_pos hsmall]
  · rw [if_neg hsmall]
    have h1 : ¬(expectedAspect cfg r * (1 + cfg.split_tolerance) <
        observedAspect r) := not_lt.mpr hmaj
    have h2 : ¬(1 + cfg.split_tolerance <
        r.height / r.width * expectedAspect cfg r) := not_lt.mpr hmin
    have hcl : ∀ cap : ℤ, max 1 (min cap 1) = 1 := fun cap => by omega
    simp only [h1, h2, if_false, hcl]
    simp

/-- Witness for C7: the default configuration and a 280×100 rectangle
(aspect 2.8, exactly the expected top-face aspect) is not split. -/
theorem split_rect_noop_within_tolerance_witness :
    split_rect_if_merged {} (fun _ => (1, 0)) (fun _ _ _ => [])
      ⟨(0, 0), 280, 100, 0, []⟩ = [⟨(0, 0), 280, 100, 0, []⟩] :=
  split_rect_noop_within_tolerance {} (fun _ => (1, 0)) (fun _ _ _ => [])
    ⟨(0, 0), 280, 100, 0, []⟩ (by norm_num) (by norm_num)
    (by
      simp only [observedAspect, expectedAspect, pyMinByDistPair]
      norm_num
      rw [if_neg (not_lt.mpr (abs_nonneg _))]
      norm_num)
    (by
      simp only [observedAspect, expectedAspect, pyMinByDistPair]
      norm_num
      rw [if_neg (not_lt.mpr (abs_nonneg _))]
      norm_num)

end DetectJenga

namespace Calibrate

/-- If some expected marker identity has no detection, the collection
loop aborts with `none` (the caught `ValueError`). -/
theorem collectImagePoints_missing (dets : List (ℕ × List (ℚ × ℚ)))
    (ids : List ℕ) (t : ℕ) (ht : t ∈ ids)
    (hm : findCorners dets t = none) :
    collectImagePoints dets ids = none := by
  induction ids with
  | nil => cases ht
  | cons a rest ih =>
    rcases List.mem_cons.mp ht with h | h
    · subst h
      simp only [collectImagePoints, hm]
    · simp only [collectImagePoints]
      cases hf : findCorners dets a with
      | none => rfl
      | some cs => rw [ih h]; rfl

/-- If every expected marker identity is detected, the collection loop
returns the centroids of the first matching detections, in order. -/
theorem collectImagePoints_complete (dets : List (ℕ × List (ℚ × ℚ)))
    (ids : List ℕ)
    (hall : ∀ t ∈ ids, (findCorners dets t).isSome = true) :
    collectImagePoints dets ids =
      some (ids.map fun t => centroid ((findCorners dets t).getD [])) := by
  induction ids with
  | nil => rfl
  | cons a rest ih =>
    have ha := hall a (List.mem_cons_self a rest)
    obtain ⟨cs, hcs⟩ := Option.isSome_iff_exists.mp ha
    simp only [collectImagePoints, hcs, List.map_cons]
    rw [ih fun t ht => hall t (List.mem_cons_of_mem a ht)]
    simp [hcs]

/-- C8: `compute_homography` produces no matrix when no markers were
detected, when fewer than four were detected, or when an expected
marker identity is absent; on success the image point used for each
expected identity is the centroid (arithmetic mean) of that marker's
detected corner points, and the result is the perspective transform
(`gpt`, i.e. `cv2.getPerspectiveTransform`) mapping those image points
to the known robot-frame coordinates. -/
theorem compute_homography_spec {M : Type}
    (gpt : List (ℚ × ℚ) → List (ℚ × ℚ) → M)
    (robot_coords : List (ℚ × ℚ)) (marker_ids : List ℕ)
    (dets : Option (List (ℕ × List (ℚ × ℚ)))) :
    (dets = none →
      compute_homography gpt robot_coords marker_ids dets = none)
    ∧ (∀ l, dets = some l → l.length < 4 →
      compute_homography gpt robot_coords marker_ids dets = none)
    ∧ (∀ l, dets = some l → (∃ t ∈ marker_ids, findCorners l t = none) →
      compute_homography gpt robot_coords marker_ids dets = none)
    ∧ (∀ l, dets = some l → 4 ≤ l.length →
      (∀ t ∈ marker_ids, (findCorners l t).isSome = true) →
      compute_homography gpt robot_coords marker_ids dets =
        some (gpt
          (marker_ids.map fun t => centroid ((findCorners l t).getD []))
          robot_coords)) := by
  refine ⟨fun h => by subst h; rfl, fun l h hl => ?_, fun l h hmiss => ?_,
    fun l h h4 hall => ?_⟩
  · subst h
    simp only [compute_homography]
    rw [if_pos hl]
  · subst h
    obtain ⟨t, ht, hm⟩ := hmiss
    simp only [compute_homography]
    by_cases hl : l.length < 4
    · rw [if_pos hl]
    · rw [if_neg hl, collectImagePoints_missing l marker_ids t ht hm]
  · subst h
    simp only [compute_homography]
    rw [if_neg (not_lt.mpr h4), collectImagePoints_complete l marker_ids hall]

/-- Witness for C8: four markers with identities 0-3, each with four
corner points; the homography succeeds and uses the corner centroids. -/
theorem compute_homography_spec_witness :
    compute_homography Prod.mk
      [(41436 / 100, 21440 / 100), (41766 / 100, -22417 / 100),
        (10874 / 100, -22455 / 100), (10634 / 100, 22574 / 100)]
      [0, 1, 2, 3]
      (some [(0, [(0, 0), (2, 0), (2, 2), (0, 2)]),
             (1, [(10, 0), (12, 0), (12, 2), (10, 2)]),
             (2, [(10, 10), (12, 10), (12, 12), (10, 12)]),
             (3, [(0, 10), (2, 10), (2, 12), (0, 12)])]) =
      some (Prod.mk
        ([0, 1, 2, 3].map fun t => centroid
          ((findCorners
            [(0, [(0, 0), (2, 0), (2, 2), (0, 2)]),
             (1, [(10, 0), (12, 0), (12, 2), (10, 2)]),
             (2, [(10, 10), (12, 10), (12, 12), (10, 12)]),
             (3, [(0, 10), (2, 10), (2, 12), (0, 12)])] t).getD []))
        [(41436 / 100, 21440 / 100), (41766 / 100, -22417 / 100),
          (10874 / 100, -22455 / 100), (10634 / 100, 22574 / 100)]) :=
  (compute_homography_spec Prod.mk
    [(41436 / 100, 21440 / 100), (41766 / 100, -22417 / 100),
      (10874 / 100, -22455 / 100), (10634 / 100, 22574 / 100)]
    [0, 1, 2, 3] _).2.2.2 _ rfl (by norm_num) (by decide)

end Calibrate

namespace RoarmHelper

/-- When every poll yields a monitored-value dict that is empty, the
loop re-enters its first-poll branch forever, with `last_values` stuck
at the empty dict. -/
theorem waitLoop_statusOnly_stuck (tol interval : ℚ) (required : ℕ) :
    ∀ (fuel i sc : ℕ) (elapsed : ℚ),
      waitLoop statusOnlyStream tol interval required fuel i sc [] elapsed =
        none := by
  intro fuel
  induction fuel with
  | zero => intro i sc el; rfl
  | succ n ih => exact fun i sc el => ih (i + 1) sc (el + interval)

/-- C5 (the code violates it): against a feedback source that always
answers with a truthy dict containing no numeric monitored axis —
exactly what `_send_command`'s raw-text fallback returns —
`wait_for_motion_completion` never exits, for any number of loop
iterations: the `if not last_values` branch repeats forever and skips
both the stability check and the 15-second timeout check, so the wait
blocks indefinitely instead of terminating. -/
theorem wait_for_motion_completion_no_exit (fuel : ℕ) :
    wait_for_motion_completion statusOnlyStream fuel = none :=
  waitLoop_statusOnly_stuck (2 / 100) (2 / 10) 3 fuel 0 0 0

end RoarmHelper

namespace Pickup

/-- `ensure_coordinate` rejects exactly the coordinates with fewer than
two components. -/
theorem ensure_coordinate_short (c : List ℚ) (h : c.length < 2) :
    ensure_coordinate c = .error "Coordinate must contain at least x and y" := by
  match c with
  | [] => rfl
  | [x] => rfl
  | x :: y :: rest => exact absurd h (by simp)

/-- C10: `pickup`'s argument validation: an empty targets dict, a
selected color absent from the dict, an empty coordinate list for the
selected color, or a first coordinate with fewer than two components
each make `pickup` return `(False, message)` with no arm command issued
(empty command trace) and no exception; and passing `color = None`
behaves exactly like passing the first key of the targets dict. -/
theorem pickup_guards (armExec : ArmCmd → Except String Unit)
    (targets : List (String × List (List ℚ))) (color : Option String) :
    (targets = [] → ∃ m, pickup armExec targets color = ((false, m), []))
    ∧ (∀ c, selectColor targets color = some c → targets.lookup c = none →
        ∃ m, pickup armExec targets color = ((false, m), []))
    ∧ (∀ c, selectColor targets color = some c →
        targets.lookup c = some [] →
        ∃ m, pickup armExec targets color = ((false, m), []))
    ∧ (∀ c cl c0, selectColor targets color = some c →
        targets.lookup c = some cl → cl.head? = some c0 → c0.length < 2 →
        ∃ m, pickup armExec targets color = ((false, m), []))
    ∧ (∀ k0 v0 rest, targets = (k0, v0) :: rest →
        pickup armExec targets none = pickup armExec targets (some k0)) := by
  refine ⟨fun h => ?_, fun c hc hl => ?_, fun c hc hl => ?_,
    fun c cl c0 hc hl hh hlen => ?_, fun k0 v0 rest h => ?_⟩
  · subst h; exact ⟨_, rfl⟩
  · match targets, hc with
    | (k0, v0) :: rest, hc =>
      simp only [selectColor, Option.some.injEq] at hc
      subst hc
      simp only [pickup, hl]
      exact ⟨_, rfl⟩
  · match targets, hc with
    | (k0, v0) :: rest, hc =>
      simp only [selectColor, Option.some.injEq] at hc
      subst hc
      simp only [pickup, hl]
      exact ⟨_, rfl⟩
  · match targets, hc with
    | (k0, v0) :: rest, hc =>
      simp only [selectColor, Option.some.injEq] at hc
      subst hc
      rcases cl with _ | ⟨chead, cltail⟩
      · cases hh
      · injection hh with h0
        subst h0
        simp only [pickup, hl, ensure_coordinate_short chead hlen]
        exact ⟨_, rfl⟩
  · subst h; rfl

/-- Witness for C10: an empty coordinate list for the (implicitly
selected) first color `"red"`; no command reaches the arm. -/
theorem pickup_guards_witness :
    ∃ m, pickup (fun _ => .ok ()) [("red", [])] none = ((false, m), []) :=
  (pickup_guards (fun _ => .ok ()) [("red", [])] none).2.2.1 "red" rfl rfl

end Pickup
